import Mathlib

set_option maxHeartbeats 1000000

/-!
Shallow embedding of the pyalarmdotcom client (the HTML "PDA" variant in
pyalarmdotcom.py, the JSON-API variant in pyalarmdotcomwebapi.py, and the
host adapter in alarm_control_panel.py), together with theorems about the
behaviour of login, status polling and command dispatch.

The network is modelled as a world of response streams, one stream per
endpoint, consumed in order.  Python control flow is translated faithfully:
un-caught exceptions become an explicit error result, Python return values
become an explicit value type, and each operation additionally yields a
trace of observable events (requests with their enclosing timeout bound,
login attempts, dispatched commands).
-/

deriving instance DecidableEq for Except

/-- Python runtime values returned by the modelled coroutines: None, a bool,
or a string. -/
inductive PyVal where
  | vNone
  | vBool (b : Bool)
  | vStr (s : String)
deriving DecidableEq, Repr

/-- Python exceptions that can escape the modelled operations.  netException
stands for the requests-level connection error raised by the stateful
browser used in the JSON-API variant (which is not an aiohttp ClientError,
so the aiohttp except clauses never catch it).  unboundLocalError is raised
when a local variable is read before any assignment to it ran: _send's
finally block reads response, which unlike in async_login and async_update
is never initialized before the try, so every path on which the POST
response was not bound ends in UnboundLocalError, superseding whatever
exception was in flight. -/
inductive PyExc where
  | indexError
  | typeError
  | attributeError
  | keyError
  | netException
  | unboundLocalError
deriving DecidableEq, Repr

/-- Outcome of one HTTP exchange as seen by the client: either a parsed
response page, or a network failure (asyncio.TimeoutError raised by the
enclosing async_timeout block, or an aiohttp/requests client error; for the
JSON API this also covers a body that fails JSON decoding, since the code
handles both identically). -/
inductive HttpResult (α : Type) where
  | ok (page : α)
  | netErr
deriving DecidableEq, Repr

/-- Observable events of a run: a network request (recording the innermost
timeout bound, in seconds, under which the request is issued, or none when
the call site sits in no timeout block), the start of a login attempt, and
entry of the command dispatcher with the command it was asked to send. -/
inductive Ev where
  | request (name : String) (timeoutBound : Option Nat)
  | login
  | dispatch (cmd : String)
deriving DecidableEq, Repr

/-- Recognize a login-attempt event. -/
def Ev.isLoginEv : Ev → Bool
  | .login => true
  | _ => false

/-- Number of login attempts recorded in a trace. -/
def countLogins (tr : List Ev) : Nat :=
  (tr.filter Ev.isLoginEv).length

/-- The sequence of commands handed to the dispatcher, in order. -/
def dispatched (tr : List Ev) : List String :=
  tr.filterMap fun e =>
    match e with
    | .dispatch c => some c
    | _ => none

/-- True when an event is not a request, or is a request issued under the
fixed 10-second timeout. -/
def Ev.timed10 : Ev → Bool
  | .request _ (some 10) => true
  | .request _ _ => false
  | _ => true

/-- Every request in the trace is issued under the 10-second timeout. -/
def allTimed10 (tr : List Ev) : Bool :=
  tr.all Ev.timed10

/-- Some request in the trace is issued under no timeout bound at all. -/
def hasUntimedReq (tr : List Ev) : Bool :=
  tr.any fun e =>
    match e with
    | .request _ none => true
    | _ => false

/-- The needle character list occurs at the very start of the hay list. -/
def leadsWith : List Char → List Char → Bool
  | _, [] => true
  | [], _ :: _ => false
  | c :: cs, d :: ds => c == d && leadsWith cs ds

/-- The needle character list occurs somewhere inside the hay list. -/
def hasSub : List Char → List Char → Bool
  | hay, needle =>
    leadsWith hay needle ||
      match hay with
      | [] => false
      | _ :: rest => hasSub rest needle

/-- Python's substring test `needle in hay`. -/
def strContains (hay needle : String) : Bool :=
  hasSub hay.data needle.data

/-- Python's str.upper, character by character (the commands used here are
ASCII). -/
def pyUpper (s : String) : String :=
  String.mk (s.data.map Char.toUpper)

/-- Python's str.lower, character by character (the states used here are
ASCII). -/
def pyLower (s : String) : String :=
  String.mk (s.data.map Char.toLower)

/-- Python truthiness of the modelled values. -/
def truthy : PyVal → Bool
  | .vNone => false
  | .vBool b => b
  | .vStr s => s != ""

namespace Pda

/-- The login page fetched by GET from the PDA portal, reduced to the parts
the code reads: the sessionKey group of SESSION_KEY_RE matched on the
response URL (none when the regex does not match, which makes groupdict()
raise AttributeError), and for each hidden field the value attributes of
the elements matching its selector (an empty list makes the [0] subscript
raise IndexError; a none entry is an element without a value attribute). -/
structure LoginGetPage where
  sessionKey : Option String
  viewstate : List (Option String)
  viewstategenerator : List (Option String)
  eventvalidation : List (Option String)
deriving DecidableEq, Repr

/-- The response to the credential POST: the texts of elements matching the
alarm-state selector, and the value attributes of elements matching the
error-control selector. -/
structure LoginPostPage where
  alarmState : List String
  errorControl : List (Option String)
deriving DecidableEq, Repr

/-- The status page fetched by the poll: the texts of elements matching the
alarm-state selector. -/
structure PollPage where
  alarmState : List String
deriving DecidableEq, Repr

/-- The response to a command POST: the texts of elements matching the
message-control selector. -/
structure CommandPage where
  messageControl : List String
deriving DecidableEq, Repr

/-- The dict the code stores in self._login_info: the session key plus the
three scraped hidden-field values (each possibly None). -/
structure LoginInfo where
  sessionkey : String
  viewstate : Option String
  viewstategenerator : Option String
  eventvalidation : Option String
deriving DecidableEq, Repr

/-- Mutable state of the PDA client: self._login_info and self.state. -/
structure State where
  loginInfo : Option LoginInfo
  state : Option String
deriving DecidableEq, Repr

/-- The client state right after __init__. -/
def init : State := ⟨none, none⟩

/-- Pending responses of the portal, one stream per endpoint, consumed in
order; an exhausted stream behaves as a network failure. -/
structure World where
  loginGets : List (HttpResult LoginGetPage)
  loginPosts : List (HttpResult LoginPostPage)
  polls : List (HttpResult PollPage)
  cmds : List (HttpResult CommandPage)
deriving DecidableEq, Repr

/-- Result of running one modelled coroutine: the Python outcome (value or
uncaught exception), the final client state, the remaining world, and the
event trace. -/
structure R (α : Type) where
  ret : Except PyExc α
  st : State
  w : World
  tr : List Ev
deriving DecidableEq, Repr

/-- Model of Alarmdotcom.async_login (pyalarmdotcom.py).  GET the login
page under a 10-second timeout (network failure returns False); extract the
session key (regex miss raises AttributeError, re-raised by the except
clause) and the three hidden fields (a missing element raises an uncaught
IndexError) into self._login_info; POST the credentials under a 10-second
timeout (network failure returns False); on a response carrying the
alarm-state element store it in self.state and fall off the end (returning
None); otherwise read the error-control element (missing element: uncaught
IndexError; element without value: the `in None` test raises TypeError) and
return False when it contains the bad-credentials message, else fall off
the end returning None. -/
def asyncLogin (s : State) (w : World) : R PyVal :=
  let tr0 : List Ev := [Ev.login, Ev.request "pda-login-get" (some 10)]
  match w.loginGets with
  | [] => ⟨.ok (.vBool false), s, { w with loginGets := [] }, tr0⟩
  | g :: grest =>
    let w1 : World := { w with loginGets := grest }
    match g with
    | .netErr => ⟨.ok (.vBool false), s, w1, tr0⟩
    | .ok page =>
      match page.sessionKey with
      | none => ⟨.error .attributeError, s, w1, tr0⟩
      | some sk =>
        match page.viewstate with
        | [] => ⟨.error .indexError, s, w1, tr0⟩
        | vs :: _ =>
          match page.viewstategenerator with
          | [] => ⟨.error .indexError, s, w1, tr0⟩
          | vsg :: _ =>
            match page.eventvalidation with
            | [] => ⟨.error .indexError, s, w1, tr0⟩
            | ev :: _ =>
              let s1 : State := { s with loginInfo := some ⟨sk, vs, vsg, ev⟩ }
              let tr1 := tr0 ++ [Ev.request "pda-login-post" (some 10)]
              match w1.loginPosts with
              | [] => ⟨.ok (.vBool false), s1, { w1 with loginPosts := [] }, tr1⟩
              | p :: prest =>
                let w2 : World := { w1 with loginPosts := prest }
                match p with
                | .netErr => ⟨.ok (.vBool false), s1, w2, tr1⟩
                | .ok pp =>
                  match pp.alarmState with
                  | t :: _ => ⟨.ok .vNone, { s1 with state := some t }, w2, tr1⟩
                  | [] =>
                    match pp.errorControl with
                    | [] => ⟨.error .indexError, s1, w2, tr1⟩
                    | none :: _ => ⟨.error .typeError, s1, w2, tr1⟩
                    | some msg :: _ =>
                      if strContains msg "Login failure: Bad Credentials" then
                        ⟨.ok (.vBool false), s1, w2, tr1⟩
                      else
                        ⟨.ok .vNone, s1, w2, tr1⟩

/-- Model of Alarmdotcom.async_update (pyalarmdotcom.py), recursing on the
list of pending poll responses.  When self._login_info is unset it first
runs async_login (whose exceptions propagate, since the call sits before
the try block); the poll GET then subscripts self._login_info, so a still
unset login dict raises an uncaught TypeError.  A network failure on the
GET returns False.  A page carrying the alarm-state element stores it in
self.state and the coroutine falls off the end, returning None.  A page
without it clears self.state and self._login_info and recurses, discarding
the recursive result (so the outer call again returns None unless the
recursion raised). -/
def updateGo : List (HttpResult PollPage) → State → World → R PyVal
  | polls, s, w =>
    let pre : R Unit :=
      match s.loginInfo with
      | none =>
        let r := asyncLogin s w
        ⟨r.ret.map fun _ => (), r.st, r.w, r.tr⟩
      | some _ => ⟨.ok (), s, w, []⟩
    match pre.ret with
    | .error e => ⟨.error e, pre.st, { pre.w with polls := polls }, pre.tr⟩
    | .ok _ =>
      match pre.st.loginInfo with
      | none => ⟨.error .typeError, pre.st, { pre.w with polls := polls }, pre.tr⟩
      | some _ =>
        let tr1 := pre.tr ++ [Ev.request "pda-status-get" (some 10)]
        match polls with
        | [] => ⟨.ok (.vBool false), pre.st, { pre.w with polls := [] }, tr1⟩
        | p :: rest =>
          let w1 : World := { pre.w with polls := rest }
          match p with
          | .netErr => ⟨.ok (.vBool false), pre.st, w1, tr1⟩
          | .ok page =>
            match page.alarmState with
            | t :: _ => ⟨.ok .vNone, { pre.st with state := some t }, w1, tr1⟩
            | [] =>
              let s2 : State := { pre.st with state := none, loginInfo := none }
              let r := updateGo rest s2 w1
              match r.ret with
              | .error e => ⟨.error e, r.st, r.w, tr1 ++ r.tr⟩
              | .ok _ => ⟨.ok .vNone, r.st, r.w, tr1 ++ r.tr⟩

/-- Entry point of the status poll: run updateGo on the pending poll
responses. -/
def asyncUpdate (s : State) (w : World) : R PyVal :=
  updateGo w.polls s w

/-- Model of Alarmdotcom._send (pyalarmdotcom.py), recursing on the list of
pending command responses.  Unlike async_login and async_update, _send does
not initialize its response variable before the try, while its finally
block reads it; therefore every path on which the POST response is never
bound escapes with UnboundLocalError from the finally: subscripting an
unset self._login_info (which raises TypeError first), looking an unknown
event up in COMMAND_LIST (KeyError first), and a network failure of the
POST itself (caught and logged by the except clause, after which the
finally still raises).  On a bound response: a page carrying the
message-control element triggers async_update when the text mentions
"command"; a page without it is taken as a lost session: async_login runs
and then the source re-dispatches Disarm for Disarm but Arm+Away for both
Arm+Stay and Arm+Away, recursing into _send; exceptions of those nested
calls propagate unchanged (response is bound, so the finally is
harmless). -/
def sendGo : List (HttpResult CommandPage) → String → State → World → R PyVal
  | cmds, event, s, w =>
    let tr0 : List Ev := [Ev.dispatch event]
    match s.loginInfo with
    | none => ⟨.error .unboundLocalError, s, { w with cmds := cmds }, tr0⟩
    | some _ =>
      if ["Disarm", "Arm+Stay", "Arm+Away"].contains event then
        let tr1 := tr0 ++ [Ev.request "pda-command-post" (some 10)]
        match cmds with
        | [] => ⟨.error .unboundLocalError, s, { w with cmds := [] }, tr1⟩
        | c :: rest =>
          let w1 : World := { w with cmds := rest }
          match c with
          | .netErr => ⟨.error .unboundLocalError, s, w1, tr1⟩
          | .ok page =>
            match page.messageControl with
            | msg :: _ =>
              if strContains msg "command" then
                let r := asyncUpdate s w1
                match r.ret with
                | .error e => ⟨.error e, r.st, r.w, tr1 ++ r.tr⟩
                | .ok _ => ⟨.ok .vNone, r.st, r.w, tr1 ++ r.tr⟩
              else ⟨.ok .vNone, s, w1, tr1⟩
            | [] =>
              let rl := asyncLogin s w1
              match rl.ret with
              | .error e => ⟨.error e, rl.st, rl.w, tr1 ++ rl.tr⟩
              | .ok _ =>
                let retried :=
                  if event = "Disarm" then "Disarm"
                  else "Arm+Away"
                let r := sendGo rest retried rl.st rl.w
                match r.ret with
                | .error e => ⟨.error e, r.st, r.w, tr1 ++ rl.tr ++ r.tr⟩
                | .ok _ => ⟨.ok .vNone, r.st, r.w, tr1 ++ rl.tr ++ r.tr⟩
      else ⟨.error .unboundLocalError, s, { w with cmds := cmds }, tr0⟩

/-- Entry point of the command dispatcher: run sendGo on the pending
command responses. -/
def asyncSend (event : String) (s : State) (w : World) : R PyVal :=
  sendGo w.cmds event s w

/-- Model of async_alarm_disarm. -/
def asyncAlarmDisarm (s : State) (w : World) : R PyVal :=
  asyncSend "Disarm" s w

/-- Model of async_alarm_arm_home. -/
def asyncAlarmArmHome (s : State) (w : World) : R PyVal :=
  asyncSend "Arm+Stay" s w

/-- Model of async_alarm_arm_away. -/
def asyncAlarmArmAway (s : State) (w : World) : R PyVal :=
  asyncSend "Arm+Away" s w

end Pda

namespace Web

/-- One sensor record of the devices/sensors JSON response, reduced to the
two attributes the code reads. -/
structure Sensor where
  description : String
  stateText : String
deriving DecidableEq, Repr

/-- Shapes of JSON bodies returned by the /web/api endpoints, reduced to
the fields the code reads: availableSystemItems (the ids under data),
systems/{id} (the partition ids under data.relationships.partitions.data),
a partition command response (data.attributes.state and
data.relationships.stateInfo.data.id), and devices/sensors (the sensor
list under data).  Reading a field from a body of any other shape raises a
KeyError (modelled uniformly for missing keys). -/
inductive ApiJson where
  | avail (ids : List String)
  | system (partitionIds : List String)
  | partition (state : Int) (stateInfoId : String)
  | sensors (items : List Sensor)
  | other
deriving DecidableEq, Repr

/-- The login page opened by the stateful browser; the regular expressions
yield an optional group each (only passed on as POST data, never stored). -/
structure LoginPage where
  session : Option String
  viewstate : Option String
  viewstategenerator : Option String
  eventvalidation : Option String
deriving DecidableEq, Repr

/-- Mutable state of the JSON-API client: self.logged_in (False after
__init__, None right before the credential POST, True after it),
self.state (initialized to the empty string), self.sensor_status
(initialized to None) and self.panel_id. -/
structure State where
  loggedIn : PyVal
  state : PyVal
  sensorStatus : PyVal
  panelId : Option String
deriving DecidableEq, Repr

/-- The client state right after __init__. -/
def init : State := ⟨.vBool false, .vStr "", .vNone, none⟩

/-- Pending responses, one stream per kind of exchange, consumed in order;
an exhausted stream behaves as a network failure. -/
structure World where
  loginOpens : List (HttpResult LoginPage)
  loginPosts : List (HttpResult Unit)
  api : List (HttpResult ApiJson)
deriving DecidableEq, Repr

/-- Result of one modelled operation of the JSON-API client. -/
structure R (α : Type) where
  ret : Except PyExc α
  st : State
  w : World
  tr : List Ev
deriving DecidableEq, Repr

/-- Model of Alarmdotcom.api_call (pyalarmdotcomwebapi.py).  When
self.logged_in is falsy the code calls self._login(), a method that does
not exist, so an AttributeError escapes (the call sits before the try
block).  Otherwise the browser issues the request under whatever timeout
bound the caller is dynamically inside of (ctx); every request or decode
failure is swallowed by the bare except, leaving the result None. -/
def apiCall (ctx : Option Nat) (url : String) (st : State) (w : World) :
    R (Option ApiJson) :=
  if truthy st.loggedIn then
    let tr : List Ev := [Ev.request ("api:" ++ url) ctx]
    match w.api with
    | [] => ⟨.ok none, st, { w with api := [] }, tr⟩
    | r :: rest =>
      let w1 : World := { w with api := rest }
      match r with
      | .netErr => ⟨.ok none, st, w1, tr⟩
      | .ok j => ⟨.ok (some j), st, w1, tr⟩
  else ⟨.error .attributeError, st, w, []⟩

/-- The fetch half of Alarmdotcom._get_panel: two API calls whose results
are subscripted without any guard, so a None result raises TypeError, an
empty data list raises IndexError and a wrong shape raises KeyError; on
success self.panel_id is stored and returned. -/
def getPanelFetch (ctx : Option Nat) (st : State) (w : World) : R String :=
  let r1 := apiCall ctx "systems/availableSystemItems" st w
  match r1.ret with
  | .error e => ⟨.error e, r1.st, r1.w, r1.tr⟩
  | .ok none => ⟨.error .typeError, r1.st, r1.w, r1.tr⟩
  | .ok (some (.avail [])) => ⟨.error .indexError, r1.st, r1.w, r1.tr⟩
  | .ok (some (.avail (uid :: _))) =>
    let r2 := apiCall ctx ("systems/systems/" ++ uid) r1.st r1.w
    match r2.ret with
    | .error e => ⟨.error e, r2.st, r2.w, r1.tr ++ r2.tr⟩
    | .ok none => ⟨.error .typeError, r2.st, r2.w, r1.tr ++ r2.tr⟩
    | .ok (some (.system [])) => ⟨.error .indexError, r2.st, r2.w, r1.tr ++ r2.tr⟩
    | .ok (some (.system (pid :: _))) =>
      ⟨.ok pid, { r2.st with panelId := some pid }, r2.w, r1.tr ++ r2.tr⟩
    | .ok (some _) => ⟨.error .keyError, r2.st, r2.w, r1.tr ++ r2.tr⟩
  | .ok (some _) => ⟨.error .keyError, r1.st, r1.w, r1.tr⟩

/-- Model of Alarmdotcom._get_panel: return the cached panel id when it is
truthy, else fetch it. -/
def getPanel (ctx : Option Nat) (st : State) (w : World) : R String :=
  match st.panelId with
  | some p => if p = "" then getPanelFetch ctx st w else ⟨.ok p, st, w, []⟩
  | none => getPanelFetch ctx st w

/-- Model of Alarmdotcom.async_login (pyalarmdotcomwebapi.py).  The
login-page open sits inside a 10-second async_timeout block but outside
any try, so a network failure there raises out of the coroutine.  Then
self.logged_in is set to None and the credential POST is issued outside
any timeout block; the bare except swallows every failure from the POST
onward, so the coroutine returns self.logged_in: None when the POST
failed, True as soon as it succeeded (the _get_panel call may fail and is
equally swallowed). -/
def asyncLogin (st : State) (w : World) : R PyVal :=
  let tr1 : List Ev := [Ev.login, Ev.request "web-login-open" (some 10)]
  match w.loginOpens with
  | [] => ⟨.error .netException, st, { w with loginOpens := [] }, tr1⟩
  | r :: rest =>
    let w1 : World := { w with loginOpens := rest }
    match r with
    | .netErr => ⟨.error .netException, st, w1, tr1⟩
    | .ok _ =>
      let st1 : State := { st with loggedIn := .vNone }
      let tr2 := tr1 ++ [Ev.request "web-login-post" none]
      match w1.loginPosts with
      | [] => ⟨.ok .vNone, st1, { w1 with loginPosts := [] }, tr2⟩
      | p :: prest =>
        let w2 : World := { w1 with loginPosts := prest }
        match p with
        | .netErr => ⟨.ok .vNone, st1, w2, tr2⟩
        | .ok _ =>
          let st2 : State := { st1 with loggedIn := .vBool true }
          let rp := getPanel none st2 w2
          ⟨.ok (.vBool true), rp.st, rp.w, tr2 ++ rp.tr⟩

/-- The states list of Alarmdotcom.command. -/
def states4 : List String := ["", "disarmed", "armed stay", "armed away"]

/-- Python list subscripting with an int index, including the negative
convention; an out-of-range index raises IndexError. -/
def pyListGet (l : List String) (i : Int) : Except PyExc String :=
  if h : 0 ≤ i ∧ i.toNat < l.length then
    .ok (l.get ⟨i.toNat, h.2⟩)
  else if h2 : i < 0 ∧ (i + l.length).toNat < l.length ∧ 0 ≤ i + l.length then
    .ok (l.get ⟨(i + l.length).toNat, h2.2.1⟩)
  else .error .indexError

/-- One sensor line of the summary, exactly as concatenated by the code. -/
def itemStr (s : Sensor) : String :=
  s.description ++ " is " ++ s.stateText

/-- The loop body of the sensor-summary construction: starting from the
current self.sensor_status, append ", " first whenever the accumulator is
truthy, then the sensor line. -/
def sumGo (acc : String) : List Sensor → String
  | [] => acc
  | s :: rest => sumGo ((if acc = "" then acc else acc ++ ", ") ++ itemStr s) rest

/-- The summary the code builds: the loop run from the empty string. -/
def buildSummary (l : List Sensor) : String :=
  sumGo "" l

/-- Modelled from the spec: the per-sensor descriptions, each rendered as
"description is stateText", joined by ", " in response order.  Written
from the specification's words, to be compared with buildSummary. -/
def specSummary : List Sensor → String
  | [] => ""
  | s :: rest =>
    match rest with
    | [] => itemStr s
    | _ :: _ => itemStr s ++ ", " ++ specSummary rest

/-- Model of Alarmdotcom.command (pyalarmdotcomwebapi.py).  The panel id is
fetched first (its exceptions propagate), then the upper-cased command is
looked up in the commands dict (an unknown command raises KeyError).  The
partition API call's result is subscripted without guard (None raises
TypeError, a wrong shape KeyError) and self.state is set to
states[currentstate]; the stateInfo id is read into a local only.  For
STATUS a second API call fetches the sensors and rebuilds
self.sensor_status from scratch.  The new self.state is returned. -/
def command (ctx : Option Nat) (cmd : String) (st : State) (w : World) : R PyVal :=
  let rp := getPanel ctx st w
  match rp.ret with
  | .error e => ⟨.error e, rp.st, rp.w, rp.tr⟩
  | .ok pid =>
    let cmdU := pyUpper cmd
    if ["ARM+STAY", "ARM+AWAY", "DISARM", "STATUS"].contains cmdU then
      let suffix :=
        if cmdU = "ARM+STAY" then "/armStay"
        else if cmdU = "ARM+AWAY" then "/armAway"
        else if cmdU = "DISARM" then "/disarm"
        else ""
      let r1 := apiCall ctx ("devices/partitions/" ++ pid ++ suffix) rp.st rp.w
      match r1.ret with
      | .error e => ⟨.error e, r1.st, r1.w, rp.tr ++ r1.tr⟩
      | .ok none => ⟨.error .typeError, r1.st, r1.w, rp.tr ++ r1.tr⟩
      | .ok (some (.partition cs _sid)) =>
        match pyListGet states4 cs with
        | .error e => ⟨.error e, r1.st, r1.w, rp.tr ++ r1.tr⟩
        | .ok newState =>
          let st1 : State := { r1.st with state := .vStr newState }
          if cmdU = "STATUS" then
            let r2 := apiCall ctx "devices/sensors" st1 r1.w
            match r2.ret with
            | .error e => ⟨.error e, r2.st, r2.w, rp.tr ++ r1.tr ++ r2.tr⟩
            | .ok none => ⟨.error .typeError, r2.st, r2.w, rp.tr ++ r1.tr ++ r2.tr⟩
            | .ok (some (.sensors items)) =>
              let st2 : State := { r2.st with sensorStatus := .vStr (buildSummary items) }
              ⟨.ok st2.state, st2, r2.w, rp.tr ++ r1.tr ++ r2.tr⟩
            | .ok (some _) => ⟨.error .keyError, r2.st, r2.w, rp.tr ++ r1.tr ++ r2.tr⟩
          else ⟨.ok st1.state, st1, r1.w, rp.tr ++ r1.tr⟩
      | .ok (some _) => ⟨.error .keyError, r1.st, r1.w, rp.tr ++ r1.tr⟩
    else ⟨.error .keyError, rp.st, rp.w, rp.tr⟩

/-- Model of Alarmdotcom.async_update (pyalarmdotcomwebapi.py): log in
first when self.logged_in is falsy (exceptions propagate, the call sits
before the try); then run command('STATUS') inside a 10-second
async_timeout block.  The except clause catches only asyncio.TimeoutError
and aiohttp.ClientError, neither of which the synchronous browser raises,
so every modelled exception from command propagates. -/
def asyncUpdate (st : State) (w : World) : R PyVal :=
  let pre : R Unit :=
    if truthy st.loggedIn then ⟨.ok (), st, w, []⟩
    else
      let r := asyncLogin st w
      ⟨r.ret.map fun _ => (), r.st, r.w, r.tr⟩
  match pre.ret with
  | .error e => ⟨.error e, pre.st, pre.w, pre.tr⟩
  | .ok _ =>
    let r := command (some 10) "STATUS" pre.st pre.w
    ⟨r.ret, r.st, r.w, pre.tr ++ r.tr⟩

/-- Model of Alarmdotcom._send (pyalarmdotcomwebapi.py): identical to
async_update except that the requested event is passed to command. -/
def send (event : String) (st : State) (w : World) : R PyVal :=
  let pre : R Unit :=
    if truthy st.loggedIn then ⟨.ok (), st, w, []⟩
    else
      let r := asyncLogin st w
      ⟨r.ret.map fun _ => (), r.st, r.w, r.tr⟩
  match pre.ret with
  | .error e => ⟨.error e, pre.st, pre.w, pre.tr⟩
  | .ok _ =>
    let r := command (some 10) event pre.st pre.w
    ⟨r.ret, r.st, r.w, pre.tr ++ r.tr⟩

end Web

/-- The home-automation platform's alarm state constants, as imported by
the host adapter. -/
def STATE_ALARM_DISARMED : String := "disarmed"

/-- The armed-home platform constant. -/
def STATE_ALARM_ARMED_HOME : String := "armed_home"

/-- The armed-away platform constant. -/
def STATE_ALARM_ARMED_AWAY : String := "armed_away"

/-- Model of the host adapter's state property (alarm_control_panel.py):
it calls self._alarm.state.lower(), which raises AttributeError when the
cached state is not a string, and maps the three recognized strings to the
platform constants, anything else to None. -/
def hostStateOf (v : PyVal) : Except PyExc (Option String) :=
  match v with
  | .vStr s =>
    if pyLower s = "disarmed" then .ok (some STATE_ALARM_DISARMED)
    else if pyLower s = "armed stay" then .ok (some STATE_ALARM_ARMED_HOME)
    else if pyLower s = "armed away" then .ok (some STATE_ALARM_ARMED_AWAY)
    else .ok none
  | _ => .error .attributeError

/-- Model of AlarmDotCom._validate_code (alarm_control_panel.py): accept
when no local code is configured or the given code equals it. -/
def validateCode (cfg : Option String) (code : Option String) : Bool :=
  match cfg with
  | none => true
  | some c => decide (code = some c)

/-- Result of a host-adapter service call over the PDA client: final
client state, remaining world and event trace. -/
structure HostR where
  st : Pda.State
  w : Pda.World
  tr : List Ev
deriving DecidableEq, Repr

/-- Model of AlarmDotCom.async_alarm_disarm: forward to the client only
when the code validates locally. -/
def hostAlarmDisarm (cfg code : Option String) (s : Pda.State) (w : Pda.World) : HostR :=
  if validateCode cfg code then
    let r := Pda.asyncAlarmDisarm s w
    ⟨r.st, r.w, r.tr⟩
  else ⟨s, w, []⟩

/-- Model of AlarmDotCom.async_alarm_arm_home. -/
def hostAlarmArmHome (cfg code : Option String) (s : Pda.State) (w : Pda.World) : HostR :=
  if validateCode cfg code then
    let r := Pda.asyncAlarmArmHome s w
    ⟨r.st, r.w, r.tr⟩
  else ⟨s, w, []⟩

/-- Model of AlarmDotCom.async_alarm_arm_away. -/
def hostAlarmArmAway (cfg code : Option String) (s : Pda.State) (w : Pda.World) : HostR :=
  if validateCode cfg code then
    let r := Pda.asyncAlarmArmAway s w
    ⟨r.st, r.w, r.tr⟩
  else ⟨s, w, []⟩

/-- Fixture: a PDA login page carrying a session key and all three hidden
fields. -/
def gGet : Pda.LoginGetPage := ⟨some "sk", [some "vs"], [some "vsg"], [some "ev"]⟩

/-- Fixture: a credential-POST response carrying the alarm-state element. -/
def gPost : Pda.LoginPostPage := ⟨["Disarmed"], []⟩

/-- Fixture: the login-info dict scraped from gGet. -/
def infoX : Pda.LoginInfo := ⟨"sk", some "vs", some "vsg", some "ev"⟩

/-- The tail of a ", "-joined rendering: one leading separator per later
sensor line. -/
def tailJoin : List Web.Sensor → String
  | [] => ""
  | s :: rest => ", " ++ Web.itemStr s ++ tailJoin rest

/-- The JSON-API client's cached alarm state is one of the four strings of
the states list. -/
def webStateOk (st : Web.State) : Prop :=
  st.state ∈ [PyVal.vStr "", PyVal.vStr "disarmed",
    PyVal.vStr "armed stay", PyVal.vStr "armed away"]

instance (st : Web.State) : Decidable (webStateOk st) := by
  unfold webStateOk
  infer_instance

/-! Helper lemmas about string concatenation and the sensor summary. -/

theorem str_append_ne_left (a b : String) (h : a ≠ "") : a ++ b ≠ "" := by
  intro h2
  apply h
  apply String.ext
  have h3 := congrArg String.data h2
  rw [String.data_append] at h3
  have h4 : a.data ++ b.data = [] := h3
  simpa using (List.append_eq_nil.mp h4).1

theorem str_append_ne_right (a b : String) (h : b ≠ "") : a ++ b ≠ "" := by
  intro h2
  apply h
  apply String.ext
  have h3 := congrArg String.data h2
  rw [String.data_append] at h3
  have h4 : a.data ++ b.data = [] := h3
  simpa using (List.append_eq_nil.mp h4).2

theorem itemStr_ne (s : Web.Sensor) : Web.itemStr s ≠ "" := by
  unfold Web.itemStr
  exact str_append_ne_left _ _ (str_append_ne_right _ _ (by decide))

theorem sumGo_of_ne (l : List Web.Sensor) :
    ∀ acc : String, acc ≠ "" → Web.sumGo acc l = acc ++ tailJoin l := by
  induction l with
  | nil =>
    intro acc _
    simp [Web.sumGo, tailJoin]
  | cons s rest ih =>
    intro acc hacc
    rw [Web.sumGo, if_neg hacc, tailJoin]
    rw [ih _ (str_append_ne_left _ _ (str_append_ne_left _ _ hacc))]
    simp [String.append_assoc]

theorem specSummary_cons :
    ∀ (l : List Web.Sensor) (s : Web.Sensor),
      Web.specSummary (s :: l) = Web.itemStr s ++ tailJoin l := by
  intro l
  induction l with
  | nil =>
    intro s
    simp [Web.specSummary, tailJoin]
  | cons t rest ih =>
    intro s
    have h1 : Web.specSummary (s :: t :: rest)
        = Web.itemStr s ++ ", " ++ Web.specSummary (t :: rest) := by
      simp [Web.specSummary]
    rw [h1, ih t, tailJoin]
    simp [String.append_assoc]

theorem buildSummary_eq_specSummary (l : List Web.Sensor) :
    Web.buildSummary l = Web.specSummary l := by
  cases l with
  | nil => rfl
  | cons s rest =>
    rw [Web.buildSummary, Web.sumGo, if_pos rfl, specSummary_cons]
    have h1 : ("" : String) ++ Web.itemStr s = Web.itemStr s := by
      simp
    rw [h1, sumGo_of_ne rest _ (itemStr_ne s)]

/-! Helper frame lemmas for the JSON-API client. -/

theorem apiCall_st (ctx : Option Nat) (url : String) (st : Web.State)
    (w : Web.World) : (Web.apiCall ctx url st w).st = st := by
  unfold Web.apiCall
  repeat' split
  all_goals rfl

theorem getPanelFetch_sensorStatus (ctx : Option Nat) (st : Web.State)
    (w : Web.World) :
    (Web.getPanelFetch ctx st w).st.sensorStatus = st.sensorStatus := by
  unfold Web.getPanelFetch
  dsimp only
  repeat' split
  all_goals simp [apiCall_st]

theorem getPanelFetch_state (ctx : Option Nat) (st : Web.State)
    (w : Web.World) :
    (Web.getPanelFetch ctx st w).st.state = st.state := by
  unfold Web.getPanelFetch
  dsimp only
  repeat' split
  all_goals simp [apiCall_st]

theorem getPanel_sensorStatus (ctx : Option Nat) (st : Web.State)
    (w : Web.World) :
    (Web.getPanel ctx st w).st.sensorStatus = st.sensorStatus := by
  unfold Web.getPanel
  repeat' split
  all_goals simp [getPanelFetch_sensorStatus]

theorem getPanel_state (ctx : Option Nat) (st : Web.State) (w : Web.World) :
    (Web.getPanel ctx st w).st.state = st.state := by
  unfold Web.getPanel
  repeat' split
  all_goals simp [getPanelFetch_state]

theorem webLogin_sensorStatus (st : Web.State) (w : Web.World) :
    (Web.asyncLogin st w).st.sensorStatus = st.sensorStatus := by
  unfold Web.asyncLogin
  dsimp only
  repeat' split
  all_goals simp [getPanel_sensorStatus]

theorem webLogin_state (st : Web.State) (w : Web.World) :
    (Web.asyncLogin st w).st.state = st.state := by
  unfold Web.asyncLogin
  dsimp only
  repeat' split
  all_goals simp [getPanel_state]

theorem command_sensorStatus_of_non_status (ctx : Option Nat) (cmd : String)
    (st : Web.State) (w : Web.World) (h : pyUpper cmd ≠ "STATUS") :
    (Web.command ctx cmd st w).st.sensorStatus = st.sensorStatus := by
  unfold Web.command
  dsimp only
  repeat' split
  all_goals simp_all [apiCall_st, getPanel_sensorStatus]

theorem send_sensorStatus_of_non_status (event : String) (st : Web.State)
    (w : Web.World) (h : pyUpper event ≠ "STATUS") :
    (Web.send event st w).st.sensorStatus = st.sensorStatus := by
  unfold Web.send
  dsimp only
  repeat' split
  all_goals
    simp_all [command_sensorStatus_of_non_status _ _ _ _ h, webLogin_sensorStatus]

theorem pyListGet_mem {l : List String} {i : Int} {v : String}
    (h : Web.pyListGet l i = .ok v) : v ∈ l := by
  unfold Web.pyListGet at h
  split at h
  · cases h
    exact List.get_mem _ _ _
  · split at h
    · cases h
      exact List.get_mem _ _ _
    · cases h

theorem mem_states4_dis (v : String) (i : Int)
    (h : Web.pyListGet Web.states4 i = .ok v) :
    v = "" ∨ v = "disarmed" ∨ v = "armed stay" ∨ v = "armed away" := by
  have hm := pyListGet_mem h
  simpa [Web.states4] using hm

theorem command_webStateOk (ctx : Option Nat) (cmd : String) (st : Web.State)
    (w : Web.World) (h : webStateOk st) :
    webStateOk (Web.command ctx cmd st w).st := by
  unfold Web.command
  dsimp only
  repeat' split
  all_goals simp_all [webStateOk, apiCall_st, getPanel_state]
  all_goals exact mem_states4_dis _ _ (by assumption)

theorem webLogin_webStateOk (st : Web.State) (w : Web.World)
    (h : webStateOk st) : webStateOk (Web.asyncLogin st w).st := by
  unfold webStateOk at h ⊢
  rw [webLogin_state]
  exact h

theorem webUpdate_webStateOk (st : Web.State) (w : Web.World)
    (h : webStateOk st) : webStateOk (Web.asyncUpdate st w).st := by
  unfold Web.asyncUpdate
  dsimp only
  repeat' split
  all_goals
    first
    | exact command_webStateOk _ _ _ _ h
    | exact command_webStateOk _ _ _ _
        (by unfold webStateOk at h ⊢; rw [webLogin_state]; exact h)
    | simp_all [webStateOk, webLogin_state]

theorem webSend_webStateOk (ev : String) (st : Web.State) (w : Web.World)
    (h : webStateOk st) : webStateOk (Web.send ev st w).st := by
  unfold Web.send
  dsimp only
  repeat' split
  all_goals
    first
    | exact command_webStateOk _ _ _ _ h
    | exact command_webStateOk _ _ _ _
        (by unfold webStateOk at h ⊢; rw [webLogin_state]; exact h)
    | simp_all [webStateOk, webLogin_state]

/-- C1: the source of _send re-dispatches Arm+Away after a re-login even
when the originally requested command was Arm+Stay.  On a logged-in client
whose Arm+Stay POST response lacks the confirmation element, the trace of
dispatched commands is Arm+Stay followed by Arm+Away, contradicting the
specified behaviour of retrying the same command. -/
theorem c1_arm_stay_retry_dispatches_arm_away :
    dispatched (Pda.asyncSend "Arm+Stay" ⟨some infoX, none⟩
      ⟨[.ok gGet], [.ok gPost], [.ok ⟨["Disarmed"]⟩],
       [.ok ⟨[]⟩, .ok ⟨["command sent"]⟩]⟩).tr
      = ["Arm+Stay", "Arm+Away"] := by
  decide

/-- C2 counterexample: on a logged-in client whose first two status
responses lack the alarm-state element and whose third carries it, the
poll performs two re-login attempts, not exactly one. -/
theorem c2_two_missing_responses_two_relogins :
    countLogins (Pda.asyncUpdate ⟨some infoX, none⟩
      ⟨[.ok gGet, .ok gGet], [.ok gPost, .ok gPost],
       [.ok ⟨[]⟩, .ok ⟨[]⟩, .ok ⟨["Disarmed"]⟩], []⟩).tr = 2 := by
  decide

/-- C3: on a login exchange whose page carries a valid view-state and
event-validation pair and whose credential response carries a
recognizable alarm-state element, the HTML variant's async_login stores
the state but falls off the end, returning Python None rather than the
boolean true promised by the contract. -/
theorem c3_pda_login_returns_none_on_success :
    (Pda.asyncLogin Pda.init ⟨[.ok gGet], [.ok gPost], [], []⟩).ret
        = .ok .vNone ∧
    (Pda.asyncLogin Pda.init ⟨[.ok gGet], [.ok gPost], [], []⟩).st.state
        = some "Disarmed" ∧
    PyVal.vNone ≠ PyVal.vBool true := by
  decide

/-- C4 counterexample: on a login whose credential response carries the
bad-credentials error panel, async_login does return false, but the
session key and the scraped view-state, view-state-generator and
event-validation tokens remain cached in self._login_info. -/
theorem c4_bad_credentials_tokens_retained :
    (Pda.asyncLogin Pda.init
        ⟨[.ok gGet], [.ok ⟨[], [some "Login failure: Bad Credentials for user"]⟩],
         [], []⟩).ret = .ok (.vBool false) ∧
    (Pda.asyncLogin Pda.init
        ⟨[.ok gGet], [.ok ⟨[], [some "Login failure: Bad Credentials for user"]⟩],
         [], []⟩).st.loginInfo = some infoX := by
  decide

/-- C5 counterexample: in the JSON-API variant a network failure while
opening the login page is not caught by any handler and raises out of
async_login instead of returning a falsy value. -/
theorem c5_web_login_network_error_raises :
    (Web.asyncLogin Web.init ⟨[.netErr], [], []⟩).ret
      = .error .netException := by
  decide

/-- C8 counterexample: the JSON-API variant's credential POST is issued
outside every timeout block, so the login trace contains a network request
with no timeout bound at all. -/
theorem c8_web_login_post_issued_untimed :
    hasUntimedReq (Web.asyncLogin Web.init
      ⟨[.ok ⟨none, none, none, none⟩], [.ok ()], []⟩).tr = true := by
  decide

/-- C4 (amended): for every login whose page scrape succeeds and whose
credential response carries an error panel containing the bad-credentials
message, async_login returns false, but the session key and the scraped
hidden-field tokens remain retained in self._login_info. -/
theorem c4_bad_credentials_false_but_tokens_kept
    (s : Pda.State) (sk : String) (vs vsg ev : Option String)
    (l1 l2 l3 : List (Option String)) (msg : String)
    (ec : List (Option String)) (gs : List (HttpResult Pda.LoginGetPage))
    (ps : List (HttpResult Pda.LoginPostPage))
    (pl : List (HttpResult Pda.PollPage)) (cm : List (HttpResult Pda.CommandPage))
    (h : strContains msg "Login failure: Bad Credentials" = true) :
    (Pda.asyncLogin s
        ⟨.ok ⟨some sk, vs :: l1, vsg :: l2, ev :: l3⟩ :: gs,
         .ok ⟨[], some msg :: ec⟩ :: ps, pl, cm⟩).ret = .ok (.vBool false) ∧
    (Pda.asyncLogin s
        ⟨.ok ⟨some sk, vs :: l1, vsg :: l2, ev :: l3⟩ :: gs,
         .ok ⟨[], some msg :: ec⟩ :: ps, pl, cm⟩).st.loginInfo
      = some ⟨sk, vs, vsg, ev⟩ := by
  simp [Pda.asyncLogin, h]

/-- C4 witness: the amended statement evaluated on a concrete
bad-credentials exchange. -/
theorem c4_bad_credentials_false_but_tokens_kept_witness :
    strContains "Login failure: Bad Credentials for user"
        "Login failure: Bad Credentials" = true ∧
    ((Pda.asyncLogin Pda.init
        ⟨[.ok ⟨some "sk", [some "vs"], [some "vsg"], [some "ev"]⟩],
         [.ok ⟨[], [some "Login failure: Bad Credentials for user"]⟩],
         [], []⟩).ret = .ok (.vBool false) ∧
     (Pda.asyncLogin Pda.init
        ⟨[.ok ⟨some "sk", [some "vs"], [some "vsg"], [some "ev"]⟩],
         [.ok ⟨[], [some "Login failure: Bad Credentials for user"]⟩],
         [], []⟩).st.loginInfo = some ⟨"sk", some "vs", some "vsg", some "ev"⟩) :=
  ⟨by decide,
   c4_bad_credentials_false_but_tokens_kept Pda.init "sk" (some "vs") (some "vsg")
     (some "ev") [] [] [] "Login failure: Bad Credentials for user" [] [] [] [] []
     (by decide)⟩

/-- C5 (amended): in the HTML variant a network or timeout failure of the
login or status-poll request is caught and surfaced as a falsy return
(both return False), but the command dispatcher never initializes its
response variable, so after its except clause catches the network failure
the finally block raises UnboundLocalError out of the dispatch; in the
JSON-API variant a network failure while opening the login page raises out
of async_login, and a network failure of the status API call surfaces as
an uncaught TypeError from the poll. -/
theorem c5_network_errors_falsy_in_pda_raise_in_web :
    (∀ (s : Pda.State) gs lp pl cm,
      (Pda.asyncLogin s ⟨.netErr :: gs, lp, pl, cm⟩).ret = .ok (.vBool false)) ∧
    (∀ (s : Pda.State) (sk : String) (vs vsg ev : Option String) l1 l2 l3 gs ps pl cm,
      (Pda.asyncLogin s
          ⟨.ok ⟨some sk, vs :: l1, vsg :: l2, ev :: l3⟩ :: gs,
           .netErr :: ps, pl, cm⟩).ret = .ok (.vBool false)) ∧
    (∀ (info : Pda.LoginInfo) (s0 : Option String) gs ps pls cm,
      (Pda.asyncUpdate ⟨some info, s0⟩ ⟨gs, ps, .netErr :: pls, cm⟩).ret
        = .ok (.vBool false)) ∧
    (∀ (ev : String) (info : Pda.LoginInfo) (s0 : Option String) gs ps pl cs,
      ev = "Disarm" ∨ ev = "Arm+Stay" ∨ ev = "Arm+Away" →
      (Pda.asyncSend ev ⟨some info, s0⟩ ⟨gs, ps, pl, .netErr :: cs⟩).ret
        = .error .unboundLocalError) ∧
    (∀ (st : Web.State) lo lp api,
      (Web.asyncLogin st ⟨.netErr :: lo, lp, api⟩).ret = .error .netException) ∧
    (∀ (stv sst : PyVal) (pid : String) lo lp api, pid ≠ "" →
      (Web.asyncUpdate ⟨.vBool true, stv, sst, some pid⟩ ⟨lo, lp, .netErr :: api⟩).ret
        = .error .typeError) := by
  refine ⟨?_, ?_, ?_, ?_, ?_, ?_⟩
  · intro s gs lp pl cm
    simp [Pda.asyncLogin]
  · intro s sk vs vsg ev l1 l2 l3 gs ps pl cm
    simp [Pda.asyncLogin]
  · intro info s0 gs ps pls cm
    simp [Pda.asyncUpdate, Pda.updateGo]
  · intro ev info s0 gs ps pl cs h
    rcases h with h | h | h <;> subst h <;> simp [Pda.asyncSend, Pda.sendGo]
  · intro st lo lp api
    simp [Web.asyncLogin]
  · intro stv sst pid lo lp api hp
    simp [Web.asyncUpdate, Web.command, Web.getPanel, Web.apiCall, truthy, hp,
      show pyUpper "STATUS" = "STATUS" from by decide]

/-- C5 witness: the dispatch conjunct evaluated on a concrete logged-in
HTML client with a network failure on the command POST, and the poll
conjunct on a concrete JSON-API client with a network failure on the
status call. -/
theorem c5_network_errors_witness :
    ("Disarm" = "Disarm" ∨ "Disarm" = "Arm+Stay" ∨ "Disarm" = "Arm+Away") ∧
    (Pda.asyncSend "Disarm" ⟨some infoX, none⟩ ⟨[], [], [], [.netErr]⟩).ret
      = .error .unboundLocalError ∧
    ("p1" : String) ≠ "" ∧
    (Web.asyncUpdate ⟨.vBool true, .vStr "", .vNone, some "p1"⟩
        ⟨[], [], [.netErr]⟩).ret = .error .typeError :=
  ⟨by decide,
   c5_network_errors_falsy_in_pda_raise_in_web.2.2.2.1 "Disarm" infoX none
     [] [] [] [] (by decide),
   by decide,
   c5_network_errors_falsy_in_pda_raise_in_web.2.2.2.2.2 (.vStr "") .vNone "p1"
     [] [] [] (by decide)⟩

/-- C6: when a local code is configured and the provided code differs from
it, all three host-adapter service calls reject the command: the
underlying client is not invoked, no network response is consumed, and the
cached state is unchanged. -/
theorem c6_pin_mismatch_no_network
    (c : String) (code : Option String) (s : Pda.State) (w : Pda.World)
    (h : code ≠ some c) :
    hostAlarmDisarm (some c) code s w = ⟨s, w, []⟩ ∧
    hostAlarmArmHome (some c) code s w = ⟨s, w, []⟩ ∧
    hostAlarmArmAway (some c) code s w = ⟨s, w, []⟩ := by
  simp [hostAlarmDisarm, hostAlarmArmHome, hostAlarmArmAway, validateCode, h]

/-- C7: after a successful status poll in the JSON-API variant the
sensor-status summary equals the per-sensor lines "description is
stateText" joined by ", " in response order, independently of whatever
summary was cached before (it is rebuilt from scratch), and the poll
returns the freshly decoded state string. -/
theorem c7_status_poll_rebuilds_summary
    (stv sst : PyVal) (pid : String) (i : Int) (sid : String)
    (items : List Web.Sensor) (rest : List (HttpResult Web.ApiJson))
    (lo : List (HttpResult Web.LoginPage)) (lp : List (HttpResult Unit))
    (v : String)
    (hpid : pid ≠ "")
    (hv : Web.pyListGet Web.states4 i = .ok v) :
    (Web.asyncUpdate ⟨.vBool true, stv, sst, some pid⟩
        ⟨lo, lp, .ok (.partition i sid) :: .ok (.sensors items) :: rest⟩).st.sensorStatus
      = .vStr (Web.specSummary items) ∧
    (Web.asyncUpdate ⟨.vBool true, stv, sst, some pid⟩
        ⟨lo, lp, .ok (.partition i sid) :: .ok (.sensors items) :: rest⟩).ret
      = .ok (.vStr v) := by
  simp [Web.asyncUpdate, Web.command, Web.getPanel, Web.apiCall, truthy, hpid, hv,
    buildSummary_eq_specSummary,
    show pyUpper "STATUS" = "STATUS" from by decide]

/-- C7 witness: the summary rebuilt on a concrete two-sensor poll,
overwriting a stale cached summary. -/
theorem c7_status_poll_rebuilds_summary_witness :
    ("p1" : String) ≠ "" ∧
    Web.pyListGet Web.states4 1 = .ok "disarmed" ∧
    ((Web.asyncUpdate ⟨.vBool true, .vStr "", .vStr "stale", some "p1"⟩
        ⟨[], [],
         [.ok (.partition 1 "sid"),
          .ok (.sensors [⟨"Front Door", "Closed"⟩, ⟨"Back Door", "Open"⟩])]⟩).st.sensorStatus
       = .vStr (Web.specSummary [⟨"Front Door", "Closed"⟩, ⟨"Back Door", "Open"⟩]) ∧
     (Web.asyncUpdate ⟨.vBool true, .vStr "", .vStr "stale", some "p1"⟩
        ⟨[], [],
         [.ok (.partition 1 "sid"),
          .ok (.sensors [⟨"Front Door", "Closed"⟩, ⟨"Back Door", "Open"⟩])]⟩).ret
       = .ok (.vStr "disarmed")) :=
  ⟨by decide, by decide,
   c7_status_poll_rebuilds_summary (.vStr "") (.vStr "stale") "p1" 1 "sid"
     [⟨"Front Door", "Closed"⟩, ⟨"Back Door", "Open"⟩] [] [] [] "disarmed"
     (by decide) (by decide)⟩

/-- C9: dispatching any command other than a status poll through the
JSON-API variant, whether directly through command or through the _send
wrapper, leaves the cached sensor-status summary unchanged. -/
theorem c9_non_status_preserves_summary
    (ctx : Option Nat) (cmd : String) (st : Web.State) (w : Web.World)
    (h : pyUpper cmd ≠ "STATUS") :
    (Web.command ctx cmd st w).st.sensorStatus = st.sensorStatus ∧
    (Web.send cmd st w).st.sensorStatus = st.sensorStatus :=
  ⟨command_sensorStatus_of_non_status ctx cmd st w h,
   send_sensorStatus_of_non_status cmd st w h⟩

/-- C9 witness: a concrete disarm dispatch leaves a concrete cached
summary untouched. -/
theorem c9_non_status_preserves_summary_witness :
    pyUpper "Disarm" ≠ "STATUS" ∧
    ((Web.command (some 10) "Disarm"
        ⟨.vBool true, .vStr "", .vStr "old", some "p1"⟩
        ⟨[], [], [.ok (.partition 0 "sid")]⟩).st.sensorStatus
      = (⟨.vBool true, .vStr "", .vStr "old", some "p1"⟩ : Web.State).sensorStatus ∧
     (Web.send "Disarm"
        ⟨.vBool true, .vStr "", .vStr "old", some "p1"⟩
        ⟨[], [], [.ok (.partition 0 "sid")]⟩).st.sensorStatus
      = (⟨.vBool true, .vStr "", .vStr "old", some "p1"⟩ : Web.State).sensorStatus) :=
  ⟨by decide,
   c9_non_status_preserves_summary (some 10) "Disarm"
     ⟨.vBool true, .vStr "", .vStr "old", some "p1"⟩
     ⟨[], [], [.ok (.partition 0 "sid")]⟩ (by decide)⟩

/-- C10: in the JSON-API variant the cached alarm state starts as the
empty string and every operation keeps it one of the four strings of the
states list, so the host adapter's state property can always lower-case
it without an AttributeError. -/
theorem c10_state_always_recognized_string :
    webStateOk Web.init ∧
    (∀ (ctx : Option Nat) (cmd : String) (st : Web.State) (w : Web.World),
      webStateOk st → webStateOk (Web.command ctx cmd st w).st) ∧
    (∀ (st : Web.State) (w : Web.World),
      webStateOk st → webStateOk (Web.asyncLogin st w).st) ∧
    (∀ (st : Web.State) (w : Web.World),
      webStateOk st → webStateOk (Web.asyncUpdate st w).st) ∧
    (∀ (ev : String) (st : Web.State) (w : Web.World),
      webStateOk st → webStateOk (Web.send ev st w).st) ∧
    (∀ st : Web.State, webStateOk st → ∃ r, hostStateOf st.state = .ok r) := by
  refine ⟨by decide, command_webStateOk, webLogin_webStateOk,
    webUpdate_webStateOk, webSend_webStateOk, ?_⟩
  intro st h
  simp only [webStateOk, List.mem_cons, List.not_mem_nil, or_false] at h
  rcases h with h | h | h | h <;> rw [h] <;> exact ⟨_, rfl⟩

/-- C10 witness: the invariant applied to a concrete arm-away command. -/
theorem c10_state_always_recognized_string_witness :
    webStateOk (⟨.vBool true, .vStr "disarmed", .vNone, some "p1"⟩ : Web.State) ∧
    webStateOk (Web.command (some 10) "Arm+Away"
      ⟨.vBool true, .vStr "disarmed", .vNone, some "p1"⟩
      ⟨[], [], [.ok (.partition 3 "sid")]⟩).st :=
  ⟨by decide,
   c10_state_always_recognized_string.2.1 (some 10) "Arm+Away"
     ⟨.vBool true, .vStr "disarmed", .vNone, some "p1"⟩
     ⟨[], [], [.ok (.partition 3 "sid")]⟩ (by decide)⟩

/-- C6 witness: the rejection evaluated at a concrete wrong code. -/
theorem c6_pin_mismatch_no_network_witness :
    (some "9999" : Option String) ≠ some "1234" ∧
    (hostAlarmDisarm (some "1234") (some "9999") Pda.init ⟨[], [], [], []⟩
        = ⟨Pda.init, ⟨[], [], [], []⟩, []⟩ ∧
     hostAlarmArmHome (some "1234") (some "9999") Pda.init ⟨[], [], [], []⟩
        = ⟨Pda.init, ⟨[], [], [], []⟩, []⟩ ∧
     hostAlarmArmAway (some "1234") (some "9999") Pda.init ⟨[], [], [], []⟩
        = ⟨Pda.init, ⟨[], [], [], []⟩, []⟩) :=
  ⟨by decide,
   c6_pin_mismatch_no_network "1234" (some "9999") Pda.init ⟨[], [], [], []⟩
     (by decide)⟩

/-! Helper lemmas for the status-poll retry loop and the timeout traces. -/

theorem asyncLogin_good (s : Pda.State)
    (gs : List (HttpResult Pda.LoginGetPage))
    (ps : List (HttpResult Pda.LoginPostPage))
    (pl : List (HttpResult Pda.PollPage))
    (cm : List (HttpResult Pda.CommandPage)) :
    Pda.asyncLogin s ⟨.ok gGet :: gs, .ok gPost :: ps, pl, cm⟩ =
      ⟨.ok .vNone, ⟨some infoX, some "Disarmed"⟩, ⟨gs, ps, pl, cm⟩,
       [Ev.login, Ev.request "pda-login-get" (some 10),
        Ev.request "pda-login-post" (some 10)]⟩ := by
  simp [Pda.asyncLogin, gGet, gPost, infoX]

theorem updateGo_relogin_loop (k : Nat) :
    ∀ (finSt : String) (s0 : Option String)
      (pl : List (HttpResult Pda.PollPage))
      (cm : List (HttpResult Pda.CommandPage)),
    countLogins (Pda.updateGo
        (List.replicate k (.ok ⟨[]⟩) ++ [.ok ⟨[finSt]⟩])
        ⟨none, s0⟩
        ⟨List.replicate (k+1) (.ok gGet), List.replicate (k+1) (.ok gPost),
         pl, cm⟩).tr = k + 1 ∧
    (Pda.updateGo
        (List.replicate k (.ok ⟨[]⟩) ++ [.ok ⟨[finSt]⟩])
        ⟨none, s0⟩
        ⟨List.replicate (k+1) (.ok gGet), List.replicate (k+1) (.ok gPost),
         pl, cm⟩).ret = .ok .vNone ∧
    (Pda.updateGo
        (List.replicate k (.ok ⟨[]⟩) ++ [.ok ⟨[finSt]⟩])
        ⟨none, s0⟩
        ⟨List.replicate (k+1) (.ok gGet), List.replicate (k+1) (.ok gPost),
         pl, cm⟩).st.state = some finSt := by
  induction k with
  | zero =>
    intro finSt s0 pl cm
    rw [Pda.updateGo.eq_def]
    simp [asyncLogin_good, countLogins, Except.map, List.filter, Ev.isLoginEv]
  | succ k ih =>
    intro finSt s0 pl cm
    rw [Pda.updateGo.eq_def]
    simp only [List.replicate_succ, List.cons_append, asyncLogin_good, Except.map]
    have ihx := ih finSt none (List.replicate k (.ok ⟨[]⟩) ++ [.ok ⟨[finSt]⟩]) cm
    simp only [List.replicate_succ] at ihx
    obtain ⟨ih1, ih2, ih3⟩ := ihx
    rw [ih2]
    simp [countLogins, List.filter, Ev.isLoginEv, ih3]
    simpa [countLogins, List.filter, Ev.isLoginEv] using ih1

/-- C2 (amended): a status response lacking the alarm-state element makes
async_update clear the cached state and session info, re-log in and retry
the poll recursively, with no overall bound: on a logged-in client fed k
consecutive state-less responses followed by one carrying a state, the
poll performs exactly k re-login attempts (one per failing response, not
at most one in total) and finally caches the delivered state, returning
None. -/
theorem c2_one_relogin_per_missing_state_element
    (k : Nat) (info : Pda.LoginInfo) (s0 : Option String)
    (finSt : String) (cm : List (HttpResult Pda.CommandPage)) :
    countLogins (Pda.asyncUpdate ⟨some info, s0⟩
        ⟨List.replicate k (.ok gGet), List.replicate k (.ok gPost),
         List.replicate k (.ok ⟨[]⟩) ++ [.ok ⟨[finSt]⟩], cm⟩).tr = k ∧
    (Pda.asyncUpdate ⟨some info, s0⟩
        ⟨List.replicate k (.ok gGet), List.replicate k (.ok gPost),
         List.replicate k (.ok ⟨[]⟩) ++ [.ok ⟨[finSt]⟩], cm⟩).ret
      = .ok .vNone ∧
    (Pda.asyncUpdate ⟨some info, s0⟩
        ⟨List.replicate k (.ok gGet), List.replicate k (.ok gPost),
         List.replicate k (.ok ⟨[]⟩) ++ [.ok ⟨[finSt]⟩], cm⟩).st.state
      = some finSt := by
  cases k with
  | zero =>
    simp only [Pda.asyncUpdate]
    rw [Pda.updateGo.eq_def]
    simp [countLogins, List.filter, Ev.isLoginEv]
  | succ k =>
    simp only [Pda.asyncUpdate]
    rw [Pda.updateGo.eq_def]
    simp only [List.replicate_succ, List.cons_append]
    have hx := updateGo_relogin_loop k finSt none
      (List.replicate k (.ok ⟨[]⟩) ++ [.ok ⟨[finSt]⟩]) cm
    simp only [List.replicate_succ] at hx
    obtain ⟨h1, h2, h3⟩ := hx
    rw [h2]
    simp [countLogins, List.filter, Ev.isLoginEv, h3]
    simpa [countLogins, List.filter, Ev.isLoginEv] using h1

theorem allTimed10_nil : allTimed10 [] = true := rfl

theorem allTimed10_cons (e : Ev) (tr : List Ev) :
    allTimed10 (e :: tr) = (Ev.timed10 e && allTimed10 tr) := by
  simp [allTimed10]

theorem allTimed10_append (a b : List Ev) :
    allTimed10 (a ++ b) = (allTimed10 a && allTimed10 b) := by
  simp [allTimed10]

theorem pdaLogin_allTimed10 (s : Pda.State) (w : Pda.World) :
    allTimed10 (Pda.asyncLogin s w).tr = true := by
  unfold Pda.asyncLogin
  dsimp only
  repeat' split
  all_goals simp [allTimed10, Ev.timed10]

theorem updateGo_allTimed10 (polls : List (HttpResult Pda.PollPage)) :
    ∀ (s : Pda.State) (w : Pda.World),
    allTimed10 (Pda.updateGo polls s w).tr = true := by
  induction polls with
  | nil =>
    intro s w
    rw [Pda.updateGo.eq_def]
    dsimp only
    repeat' split
    all_goals
      simp [allTimed10_cons, allTimed10_append, allTimed10_nil,
        pdaLogin_allTimed10, Ev.timed10]
  | cons p rest ih =>
    intro s w
    rw [Pda.updateGo.eq_def]
    dsimp only
    repeat' split
    all_goals
      simp [allTimed10_cons, allTimed10_append, allTimed10_nil,
        pdaLogin_allTimed10, Ev.timed10, ih]

theorem pdaUpdate_allTimed10 (s : Pda.State) (w : Pda.World) :
    allTimed10 (Pda.asyncUpdate s w).tr = true :=
  updateGo_allTimed10 w.polls s w

theorem sendGo_allTimed10 (cmds : List (HttpResult Pda.CommandPage)) :
    ∀ (event : String) (s : Pda.State) (w : Pda.World),
    allTimed10 (Pda.sendGo cmds event s w).tr = true := by
  induction cmds with
  | nil =>
    intro event s w
    rw [Pda.sendGo.eq_def]
    dsimp only
    repeat' split
    all_goals
      simp [allTimed10_cons, allTimed10_append, allTimed10_nil,
        pdaLogin_allTimed10, Ev.timed10]
  | cons c rest ih =>
    intro event s w
    rw [Pda.sendGo.eq_def]
    dsimp only
    repeat' split
    all_goals
      simp [allTimed10_cons, allTimed10_append, allTimed10_nil,
        pdaLogin_allTimed10, pdaUpdate_allTimed10, Ev.timed10, ih]

/-- C8 (amended): every network request issued by the HTML variant (login
page fetch, credential POST, status poll, command POST) is issued under
the fixed 10-second timeout, and a timed-out or failed request there makes
the operation report failure rather than hang; but in the JSON-API variant
the credential POST and the API calls performed during login are issued
under no timeout bound at all. -/
theorem c8_pda_requests_timed_web_login_untimed :
    (∀ (s : Pda.State) (w : Pda.World),
      allTimed10 (Pda.asyncLogin s w).tr = true) ∧
    (∀ (s : Pda.State) (w : Pda.World),
      allTimed10 (Pda.asyncUpdate s w).tr = true) ∧
    (∀ (ev : String) (s : Pda.State) (w : Pda.World),
      allTimed10 (Pda.asyncSend ev s w).tr = true) ∧
    (∀ (s : Pda.State) gs lp pl cm,
      (Pda.asyncLogin s ⟨.netErr :: gs, lp, pl, cm⟩).ret = .ok (.vBool false)) ∧
    hasUntimedReq (Web.asyncLogin Web.init
      ⟨[.ok ⟨none, none, none, none⟩], [.ok ()],
       [.ok (.avail ["u1"]), .ok (.system ["p1"])]⟩).tr = true := by
  refine ⟨pdaLogin_allTimed10, pdaUpdate_allTimed10, ?_, ?_, by decide⟩
  · intro ev s w
    exact sendGo_allTimed10 w.cmds ev s w
  · intro s gs lp pl cm
    simp [Pda.asyncLogin]
